import Mathlib

/-!
# Verification of the Simple Frame Protocol (rust_sfp)

A shallow embedding of `src/lib.rs`: the frame codec (`write_frame`,
`read_frame`), the splitting of a `Connection` into reader/writer halves
(`separate`), the iterator adapters for connections and servers, and the
connection-control passthroughs of the two halves.

Bytes are modelled as `Nat` (values < 256 where produced by the code),
streams as explicit state: a write stream records the sequence of
`write_all` calls that succeeded together with a schedule of outcomes for
successive calls, and a read stream is the list of bytes still available
followed by the I/O error the stream produces once the data is exhausted.
-/

namespace Sfp

/-- An abstract I/O error from the underlying transport: a clean
end-of-stream or any other OS error, identified by a code. -/
inductive IOErr where
  | unexpectedEof : IOErr
  | other : Nat → IOErr
deriving DecidableEq, Repr

/-- `WriteErr` from `src/lib.rs`: either a wrapped I/O error (`I0`) or the
protocol-level `TooLongFrame`. -/
inductive WriteErr where
  | I0 : IOErr → WriteErr
  | TooLongFrame : WriteErr
deriving DecidableEq, Repr

/-- `u32::MAX as usize` — the largest payload length representable in the
4-byte header. -/
def U32_MAX : Nat := 4294967295

/-- `u32::to_be_bytes`: the 4-byte big-endian representation of a `u32`
value (the argument is already reduced mod `2^32` by the `as u32` cast at
the call site). -/
def u32_to_be_bytes (n : Nat) : List Nat :=
  [n / 2 ^ 24 % 256, n / 2 ^ 16 % 256, n / 2 ^ 8 % 256, n % 256]

/-- `u32::from_be_bytes`: decode 4 bytes, big-endian, into a number. Any
4-byte input is a valid header; inputs of other lengths never occur. -/
def u32_from_be_bytes : List Nat → Nat
  | [a, b, c, d] => ((a * 256 + b) * 256 + c) * 256 + d
  | _ => 0

/-- The write side of a duplex stream. `log` is the list of payloads of
the `write_all` calls that succeeded, in order; `plan` is the outcome the
transport will give to each successive `write_all` call (`none` =
success, exhausted plan = success); `calls` counts every `write_all`
invocation, successful or not. -/
structure WStream where
  log : List (List Nat)
  plan : List (Option IOErr)
  calls : Nat
deriving DecidableEq, Repr

/-- A write stream with an empty log and a fault-free schedule. -/
def WStream.empty : WStream := ⟨[], [], 0⟩

/-- `Stream::write_all`: one blocking write of all the given bytes. On
success the bytes are handed to the stream (appended to `log`); on failure
the transport's error is returned. Either way one call is consumed. -/
def write_all (s : WStream) (data : List Nat) : Option IOErr × WStream :=
  match s.plan with
  | [] => (none, ⟨s.log ++ [data], [], s.calls + 1⟩)
  | none :: rest => (none, ⟨s.log ++ [data], rest, s.calls + 1⟩)
  | some e :: rest => (some e, ⟨s.log, rest, s.calls + 1⟩)

/-- `Connection::write_frame` from `src/lib.rs` lines 91–100. The `&mut
[u8]` payload buffer is threaded through explicitly: the third component
of the result is the buffer's contents when the call returns. -/
def write_frame (frame : List Nat) (s : WStream) :
    Except WriteErr Unit × WStream × List Nat :=
  let length := frame.length
  if length > U32_MAX then
    (Except.error WriteErr.TooLongFrame, s, frame)
  else
    let header := u32_to_be_bytes (length % 2 ^ 32)
    match write_all s header with
    | (some err, s1) => (Except.error (WriteErr.I0 err), s1, frame)
    | (none, s1) =>
      match write_all s1 frame with
      | (some err, s2) => (Except.error (WriteErr.I0 err), s2, frame)
      | (none, s2) => (Except.ok (), s2, frame)

/-- The read side of a duplex stream: the bytes still available, and the
I/O error the transport reports once a read requests more bytes than are
available (an end-of-stream or any other failure). -/
structure RStream where
  data : List Nat
  fail : IOErr
deriving DecidableEq, Repr

/-- `Stream::read_exact`: block until exactly `n` bytes are available and
consume them, or fail with the stream's error if the stream ends or errors
first (in which case no complete result is produced). -/
def read_exact (s : RStream) (n : Nat) : Except IOErr (List Nat × RStream) :=
  if n ≤ s.data.length then
    Except.ok (s.data.take n, ⟨s.data.drop n, s.fail⟩)
  else
    Except.error s.fail

/-- `Connection::read_frame` from `src/lib.rs` lines 107–114: read exactly
4 header bytes, decode them big-endian, then read exactly that many
payload bytes. -/
def read_frame (s : RStream) : Except IOErr (List Nat × RStream) :=
  match read_exact s 4 with
  | Except.error e => Except.error e
  | Except.ok (header, s1) =>
    let length := u32_from_be_bytes header
    match read_exact s1 length with
    | Except.error e => Except.error e
    | Except.ok (frame, s2) => Except.ok (frame, s2)

/-- `<Connection as Iterator>::next` from `src/lib.rs` lines 135–144 (and
`ConnectionReader::next`, which delegates to it): `Some(frame)` on
`Ok(frame)`, `None` on any error, the error itself discarded. -/
def conn_next (s : RStream) : Option (List Nat × RStream) :=
  match read_frame s with
  | Except.ok (frame, s1) => some (frame, s1)
  | Except.error _ => none

/-- An opaque transport stream handle, as held by a `Connection`. Only its
identity matters for the splitting model. -/
structure StreamHandle where
  id : Nat
deriving DecidableEq, Repr

/-- `Connection` from `src/lib.rs`: owns exactly one transport stream
handle. -/
structure Connection where
  stream : StreamHandle
deriving DecidableEq, Repr

/-- `ConnectionReader`: the read-only half produced by `separate`. -/
structure ConnectionReader where
  connection : Connection
deriving DecidableEq, Repr

/-- `ConnectionWriter`: the write-only half produced by `separate`. -/
structure ConnectionWriter where
  connection : Connection
deriving DecidableEq, Repr

/-- `Connection::try_clone` is a single call into the transport
(`Stream::try_clone`); its outcome — a duplicate handle to the same
connection, or an I/O error — is supplied by the environment. -/
def try_clone (res : Except IOErr StreamHandle) : Except IOErr Connection :=
  match res with
  | Except.ok h => Except.ok ⟨h⟩
  | Except.error e => Except.error e

/-- `Connection::separate` from `src/lib.rs` lines 84–87: consume the
connection, call `try_clone` once (its outcome given by `cloneRes`), wrap
the clone as the `ConnectionReader` and the original as the
`ConnectionWriter`; propagate the `try_clone` error unchanged. -/
def separate (c : Connection) (cloneRes : Except IOErr StreamHandle) :
    Except IOErr (ConnectionReader × ConnectionWriter) :=
  match try_clone cloneRes with
  | Except.error e => Except.error e
  | Except.ok reader => Except.ok (⟨reader⟩, ⟨c⟩)

/-- `Server::accept` from `src/lib.rs` lines 239–242: the listener's
outcome is supplied by the environment; on success the raw stream is
wrapped as a `Connection` and returned with the peer address. -/
def accept (res : Except IOErr (StreamHandle × Nat)) :
    Except IOErr (Connection × Nat) :=
  match res with
  | Except.ok (stream, addr) => Except.ok (⟨stream⟩, addr)
  | Except.error e => Except.error e

/-- `<Server as Iterator>::next` from `src/lib.rs` lines 245–256:
`Some((conn, addr))` when `accept` succeeds, `None` on any `accept`
error, the error itself discarded. -/
def server_next (res : Except IOErr (StreamHandle × Nat)) :
    Option (Connection × Nat) :=
  match accept res with
  | Except.ok (conn, addr) => some (conn, addr)
  | Except.error _ => none

/-- The timeout state of a transport stream handle: the configured read
and write timeouts. -/
structure TimeoutState where
  readTimeout : Option Nat
  writeTimeout : Option Nat
deriving DecidableEq, Repr

/-- `Stream::set_read_timeout` on the transport handle: sets the read
timeout. -/
def stream_set_read_timeout (s : TimeoutState) (t : Option Nat) : TimeoutState :=
  { s with readTimeout := t }

/-- `Stream::set_write_timeout` on the transport handle: sets the write
timeout. -/
def stream_set_write_timeout (s : TimeoutState) (t : Option Nat) : TimeoutState :=
  { s with writeTimeout := t }

/-- `<Connection as ConnectionController>::set_read_timeout`
(`src/lib.rs` lines 124–126): delegates to the transport handle's
`set_read_timeout`. -/
def connection_set_read_timeout (s : TimeoutState) (t : Option Nat) : TimeoutState :=
  stream_set_read_timeout s t

/-- `<Connection as ConnectionController>::set_write_timeout`
(`src/lib.rs` lines 127–129): delegates to the transport handle's
`set_write_timeout`. -/
def connection_set_write_timeout (s : TimeoutState) (t : Option Nat) : TimeoutState :=
  stream_set_write_timeout s t

/-- `<ConnectionWriter as ConnectionController>::set_read_timeout`
(`src/lib.rs` lines 159–161): the source calls
`self.connection.set_write_timeout(t)`. -/
def writer_set_read_timeout (s : TimeoutState) (t : Option Nat) : TimeoutState :=
  connection_set_write_timeout s t

/-- `<ConnectionReader as ConnectionController>::set_read_timeout`
(`src/lib.rs` lines 195–197): the source calls
`self.connection.set_write_timeout(t)`. -/
def reader_set_read_timeout (s : TimeoutState) (t : Option Nat) : TimeoutState :=
  connection_set_write_timeout s t

/-- Write a list of payloads in order with `write_frame`, stopping at the
first error (the driver a caller would run to send several frames). -/
def write_frames : List (List Nat) → WStream → Except WriteErr Unit × WStream
  | [], s => (Except.ok (), s)
  | p :: ps, s =>
    match write_frame p s with
    | (Except.ok _, s1, _) => write_frames ps s1
    | (Except.error e, s1, _) => (Except.error e, s1)

/-- Perform `n` successive `read_frame` calls, collecting the frames in
order and stopping at the first error. -/
def read_frames : Nat → RStream → Except IOErr (List (List Nat) × RStream)
  | 0, s => Except.ok ([], s)
  | n + 1, s =>
    match read_frame s with
    | Except.error e => Except.error e
    | Except.ok (f, s1) =>
      match read_frames n s1 with
      | Except.error e => Except.error e
      | Except.ok (fs, s2) => Except.ok (f :: fs, s2)

/-! ## Codec lemmas -/

theorem length_u32_to_be_bytes (n : Nat) : (u32_to_be_bytes n).length = 4 := rfl

theorem u32_from_be_bytes_to_be_bytes (n : Nat) (h : n < 2 ^ 32) :
    u32_from_be_bytes (u32_to_be_bytes n) = n := by
  simp only [u32_to_be_bytes, u32_from_be_bytes]
  omega

theorem read_exact_append (pre post : List Nat) (e : IOErr) (n : Nat)
    (hn : n = pre.length) :
    read_exact ⟨pre ++ post, e⟩ n = Except.ok (pre, ⟨post, e⟩) := by
  subst hn
  simp [read_exact, List.take_left, List.drop_left]

/-- Reading a frame from a stream that starts with the wire form the code
emits for payload `p` (4-byte big-endian header, then `p`) yields exactly
`p` and leaves the rest of the stream untouched. -/
theorem read_frame_wire (p rest : List Nat) (e : IOErr) (h : p.length ≤ U32_MAX) :
    read_frame ⟨u32_to_be_bytes (p.length % 2 ^ 32) ++ (p ++ rest), e⟩ =
      Except.ok (p, ⟨rest, e⟩) := by
  have hlt : p.length < 2 ^ 32 := by
    simp only [U32_MAX] at h; omega
  have hmod : p.length % 2 ^ 32 = p.length := Nat.mod_eq_of_lt hlt
  have h1 : read_exact ⟨u32_to_be_bytes (p.length % 2 ^ 32) ++ (p ++ rest), e⟩ 4 =
      Except.ok (u32_to_be_bytes (p.length % 2 ^ 32), ⟨p ++ rest, e⟩) :=
    read_exact_append _ _ _ 4 rfl
  have h2 : u32_from_be_bytes (u32_to_be_bytes (p.length % 2 ^ 32)) = p.length := by
    rw [hmod]; exact u32_from_be_bytes_to_be_bytes _ hlt
  have h3 : read_exact ⟨p ++ rest, e⟩ p.length = Except.ok (p, ⟨rest, e⟩) :=
    read_exact_append _ _ _ _ rfl
  simp only [read_frame, h1, h2, h3]

/-- On a fault-free stream, `write_frame` of a representable payload
succeeds, appends exactly the header call and the payload call to the
log, and makes exactly two write calls. -/
theorem write_frame_ok (p : List Nat) (log : List (List Nat)) (c : Nat)
    (h : p.length ≤ U32_MAX) :
    write_frame p ⟨log, [], c⟩ =
      (Except.ok (), ⟨log ++ [u32_to_be_bytes (p.length % 2 ^ 32), p], [], c + 2⟩, p) := by
  have hng : ¬ p.length > U32_MAX := by omega
  simp [write_frame, write_all, hng]

/-- On a fault-free stream, writing a list of representable payloads
succeeds and the log is the concatenation of the per-frame header/payload
call pairs. -/
theorem write_frames_ok (ps : List (List Nat)) (log : List (List Nat)) (c : Nat)
    (h : ∀ p ∈ ps, p.length ≤ U32_MAX) :
    write_frames ps ⟨log, [], c⟩ =
      (Except.ok (),
        ⟨log ++ (ps.map fun p => [u32_to_be_bytes (p.length % 2 ^ 32), p]).flatten,
          [], c + 2 * ps.length⟩) := by
  induction ps generalizing log c with
  | nil => simp [write_frames]
  | cons p ps ih =>
    have hp : p.length ≤ U32_MAX := h p (by simp)
    have hps : ∀ q ∈ ps, q.length ≤ U32_MAX := fun q hq => h q (by simp [hq])
    rw [write_frames, write_frame_ok p log c hp]
    show write_frames ps ⟨log ++ [u32_to_be_bytes (p.length % 2 ^ 32), p], [], c + 2⟩ = _
    rw [ih _ _ hps]
    have harith : c + 2 + 2 * ps.length = c + 2 * (ps.length + 1) := by omega
    simp [List.append_assoc, harith]

/-- Reading back `n` frames from the concatenation of `n` wire frames
recovers the payloads in order. -/
theorem read_frames_wire (ps : List (List Nat)) (rest : List Nat) (e : IOErr)
    (h : ∀ p ∈ ps, p.length ≤ U32_MAX) :
    read_frames ps.length
      ⟨(ps.map fun p => u32_to_be_bytes (p.length % 2 ^ 32) ++ p).flatten ++ rest, e⟩ =
      Except.ok (ps, ⟨rest, e⟩) := by
  induction ps generalizing rest with
  | nil => simp [read_frames]
  | cons p ps ih =>
    have hp : p.length ≤ U32_MAX := h p (by simp)
    have hps : ∀ q ∈ ps, q.length ≤ U32_MAX := fun q hq => h q (by simp [hq])
    have heq : ((p :: ps).map fun q => u32_to_be_bytes (q.length % 2 ^ 32) ++ q).flatten
        ++ rest =
        u32_to_be_bytes (p.length % 2 ^ 32) ++
          (p ++ ((ps.map fun q => u32_to_be_bytes (q.length % 2 ^ 32) ++ q).flatten ++ rest)) := by
      simp [List.append_assoc]
    simp only [List.length_cons, read_frames, heq, read_frame_wire p _ e hp, ih _ hps]

/-- The flat byte sequence of the per-frame call pairs is the
concatenation of the wire frames. -/
theorem flatten_call_pairs (ps : List (List Nat)) :
    ((ps.map fun p => [u32_to_be_bytes (p.length % 2 ^ 32), p]).flatten).flatten =
      (ps.map fun p => u32_to_be_bytes (p.length % 2 ^ 32) ++ p).flatten := by
  induction ps with
  | nil => rfl
  | cons p ps ih =>
    simp only [List.map_cons, List.flatten_cons, List.flatten_append, List.flatten_nil,
      List.append_nil, List.append_assoc, ih]

/-! ## Claim theorems -/

/-- C1: for every payload `p` with `length p ≤ 0xFFFFFFFF`, writing `p`
with `write_frame` succeeds and reading one frame with `read_frame` from
the bytes `write_frame` produced returns exactly `p` with nothing left
over; the empty payload is the instance `p = []`. -/
theorem C1_write_read_roundtrip (p : List Nat) (e : IOErr)
    (h : p.length ≤ U32_MAX) :
    (write_frame p WStream.empty).1 = Except.ok () ∧
    read_frame ⟨((write_frame p WStream.empty).2.1.log).flatten, e⟩ =
      Except.ok (p, ⟨[], e⟩) := by
  have he : WStream.empty = (⟨[], [], 0⟩ : WStream) := rfl
  refine ⟨by rw [he, write_frame_ok p [] 0 h], ?_⟩
  rw [he, write_frame_ok p [] 0 h]
  show read_frame ⟨(([] : List (List Nat)) ++
      [u32_to_be_bytes (p.length % 2 ^ 32), p]).flatten, e⟩ = _
  have := read_frame_wire p [] e h
  simpa using this

/-- C1 witness: the empty payload round-trips (header value 0, zero
payload bytes). -/
theorem C1_write_read_roundtrip_witness :
    ([] : List Nat).length ≤ U32_MAX ∧
    ((write_frame ([] : List Nat) WStream.empty).1 = Except.ok () ∧
      read_frame ⟨((write_frame ([] : List Nat) WStream.empty).2.1.log).flatten,
          IOErr.unexpectedEof⟩ =
        Except.ok ([], ⟨[], IOErr.unexpectedEof⟩)) :=
  ⟨by decide, C1_write_read_roundtrip [] IOErr.unexpectedEof (by decide)⟩

/-- C2: whenever `write_frame` succeeds, its payload length was
representable, and the stream received exactly two chunks — the 4-byte
big-endian header whose decoded value is the payload length, then the
payload — for a total of `L + 4` bytes. -/
theorem C2_header_correctness (p : List Nat) (s : WStream)
    (h : (write_frame p s).1 = Except.ok ()) :
    p.length ≤ U32_MAX ∧
    (write_frame p s).2.1.log = s.log ++ [u32_to_be_bytes p.length, p] ∧
    (u32_to_be_bytes p.length).length = 4 ∧
    u32_from_be_bytes (u32_to_be_bytes p.length) = p.length ∧
    (u32_to_be_bytes p.length ++ p).length = p.length + 4 := by
  rcases s with ⟨log, plan, calls⟩
  by_cases hgt : p.length > U32_MAX
  · simp [write_frame, hgt] at h
  · have hle : p.length ≤ U32_MAX := by omega
    have hlt : p.length < 2 ^ 32 := by simp only [U32_MAX] at hle; omega
    have hmod : p.length % 2 ^ 32 = p.length := Nat.mod_eq_of_lt hlt
    have hmod2 : p.length % 4294967296 = p.length := by omega
    refine ⟨hle, ?_, rfl, u32_from_be_bytes_to_be_bytes _ hlt,
      by rw [List.length_append, length_u32_to_be_bytes, Nat.add_comm]⟩
    rcases plan with _ | ⟨o, rest⟩
    · simp [write_frame, write_all, hgt, hmod, hmod2]
    · rcases o with _ | e1
      · rcases rest with _ | ⟨o2, rest2⟩
        · simp [write_frame, write_all, hgt, hmod, hmod2]
        · rcases o2 with _ | e2
          · simp [write_frame, write_all, hgt, hmod, hmod2]
          · simp [write_frame, write_all, hgt] at h
      · simp [write_frame, write_all, hgt] at h

/-- C2 witness: writing the payload `[65, 66]` ("AB") on a fault-free
stream. -/
theorem C2_header_correctness_witness :
    (write_frame [65, 66] WStream.empty).1 = Except.ok () ∧
    (([65, 66] : List Nat).length ≤ U32_MAX ∧
      (write_frame [65, 66] WStream.empty).2.1.log =
        WStream.empty.log ++ [u32_to_be_bytes ([65, 66] : List Nat).length, [65, 66]] ∧
      (u32_to_be_bytes ([65, 66] : List Nat).length).length = 4 ∧
      u32_from_be_bytes (u32_to_be_bytes ([65, 66] : List Nat).length) =
        ([65, 66] : List Nat).length ∧
      (u32_to_be_bytes ([65, 66] : List Nat).length ++ [65, 66]).length =
        ([65, 66] : List Nat).length + 4) :=
  ⟨rfl, C2_header_correctness [65, 66] WStream.empty rfl⟩

/-- C3: `read_frame` consumes exactly 4 bytes, decodes them as an
unsigned big-endian length (any header accepted, no cap), then consumes
exactly that many further bytes and returns them; if the available data
ends inside the header or inside the payload it returns the stream's I/O
error and no partial frame, and it is a total function (no panic). -/
theorem C3_read_frame_spec (s : RStream) :
    read_frame s =
      if s.data.length < 4 then Except.error s.fail
      else if s.data.length < 4 + u32_from_be_bytes (s.data.take 4) then
        Except.error s.fail
      else
        Except.ok ((s.data.drop 4).take (u32_from_be_bytes (s.data.take 4)),
          ⟨(s.data.drop 4).drop (u32_from_be_bytes (s.data.take 4)), s.fail⟩) := by
  rcases s with ⟨data, fail⟩
  by_cases h4 : data.length < 4
  · have hn : ¬ 4 ≤ data.length := by omega
    simp [read_frame, read_exact, hn, h4]
  · have h4' : 4 ≤ data.length := by omega
    by_cases hrem : u32_from_be_bytes (data.take 4) ≤ (data.drop 4).length
    · have hrem' : u32_from_be_bytes (data.take 4) ≤ data.length - 4 := by
        rw [List.length_drop] at hrem; exact hrem
      have hc : ¬ data.length < 4 + u32_from_be_bytes (data.take 4) := by omega
      simp [read_frame, read_exact, h4', hrem', h4, hc]
    · have hrem' : ¬ u32_from_be_bytes (data.take 4) ≤ data.length - 4 := by
        rw [List.length_drop] at hrem; exact hrem
      have hc : data.length < 4 + u32_from_be_bytes (data.take 4) := by omega
      simp [read_frame, read_exact, h4', hrem', h4, hc]

/-- C4: a payload longer than `0xFFFFFFFF` makes `write_frame` fail with
`TooLongFrame`, with the stream state — log, plan and call count —
completely unchanged: no I/O is performed. -/
theorem C4_oversize_rejected (p : List Nat) (s : WStream)
    (h : p.length > U32_MAX) :
    write_frame p s = (Except.error WriteErr.TooLongFrame, s, p) := by
  simp [write_frame, h]

/-- C4 witness: a payload of `0x100000000` zero bytes. -/
theorem C4_oversize_rejected_witness :
    (List.replicate (U32_MAX + 1) 0).length > U32_MAX ∧
    write_frame (List.replicate (U32_MAX + 1) 0) WStream.empty =
      (Except.error WriteErr.TooLongFrame, WStream.empty,
        List.replicate (U32_MAX + 1) 0) :=
  ⟨by rw [List.length_replicate]; exact Nat.lt_succ_self _,
    C4_oversize_rejected _ _ (by rw [List.length_replicate]; exact Nat.lt_succ_self _)⟩

/-- C5: iterating a Connection (or ConnectionReader) yields `some frame`
exactly when `read_frame` returns `Ok(frame)` and `none` exactly when it
returns an error (the error discarded); iterating a Server yields
`some (connection, address)` exactly when `accept` succeeds and `none`
exactly on an `accept` error (the error discarded). -/
theorem C5_iteration_discards_errors (s : RStream)
    (res : Except IOErr (StreamHandle × Nat)) :
    (∀ f s1, conn_next s = some (f, s1) ↔ read_frame s = Except.ok (f, s1)) ∧
    (conn_next s = none ↔ ∃ e, read_frame s = Except.error e) ∧
    (∀ c a, server_next res = some (c, a) ↔ accept res = Except.ok (c, a)) ∧
    (server_next res = none ↔ ∃ e, accept res = Except.error e) := by
  refine ⟨?_, ?_, ?_, ?_⟩
  · intro f s1
    cases hr : read_frame s with
    | ok v => cases v; simp [conn_next, hr]
    | error e => simp [conn_next, hr]
  · cases hr : read_frame s with
    | ok v => cases v; simp [conn_next, hr]
    | error e => simp [conn_next, hr]
  · intro c a
    cases res with
    | ok v => cases v; simp [server_next, accept]
    | error e => simp [server_next, accept]
  · cases res with
    | ok v => cases v; simp [server_next, accept]
    | error e => simp [server_next, accept]

/-- C6: the source of `ConnectionWriter::set_read_timeout` and
`ConnectionReader::set_read_timeout` calls
`self.connection.set_write_timeout(t)`: with both timeouts initially
unset, asking either half for a read timeout of 5 leaves the read timeout
unset and sets the write timeout instead, differing from the transport
handle's own `set_read_timeout`. -/
theorem C6_half_set_read_timeout_sets_write_timeout :
    writer_set_read_timeout ⟨none, none⟩ (some 5) = ⟨none, some 5⟩ ∧
    reader_set_read_timeout ⟨none, none⟩ (some 5) = ⟨none, some 5⟩ ∧
    stream_set_read_timeout ⟨none, none⟩ (some 5) = ⟨some 5, none⟩ ∧
    writer_set_read_timeout ⟨none, none⟩ (some 5) ≠
      stream_set_read_timeout ⟨none, none⟩ (some 5) :=
  ⟨rfl, rfl, rfl, by decide⟩

/-- C7: `separate` consumes the Connection, performs one `try_clone`,
wraps the clone as the ConnectionReader and the original as the
ConnectionWriter, and propagates a `try_clone` error unchanged with no
half produced. -/
theorem C7_separate_spec (c : Connection) (h : StreamHandle) (e : IOErr) :
    separate c (Except.ok h) = Except.ok (⟨⟨h⟩⟩, ⟨c⟩) ∧
    separate c (Except.error e) = Except.error e :=
  ⟨rfl, rfl⟩

/-- C8: writing any finite list of representable payloads in order and
then performing the same number of `read_frame` calls on the concatenated
byte stream returns exactly the original payloads in order, with nothing
left over. -/
theorem C8_sequential_frames_roundtrip (ps : List (List Nat)) (e : IOErr)
    (h : ∀ p ∈ ps, p.length ≤ U32_MAX) :
    (write_frames ps WStream.empty).1 = Except.ok () ∧
    read_frames ps.length ⟨((write_frames ps WStream.empty).2.log).flatten, e⟩ =
      Except.ok (ps, ⟨[], e⟩) := by
  have he : WStream.empty = (⟨[], [], 0⟩ : WStream) := rfl
  rw [he, write_frames_ok ps [] 0 h]
  refine ⟨rfl, ?_⟩
  show read_frames ps.length ⟨(([] : List (List Nat)) ++
      (ps.map fun p => [u32_to_be_bytes (p.length % 2 ^ 32), p]).flatten).flatten, e⟩ = _
  rw [List.nil_append, flatten_call_pairs]
  have := read_frames_wire ps [] e h
  simpa using this

/-- C8 witness: the two payloads `[1]` and `[2, 3]`. -/
theorem C8_sequential_frames_roundtrip_witness :
    (∀ p ∈ ([[1], [2, 3]] : List (List Nat)), p.length ≤ U32_MAX) ∧
    ((write_frames ([[1], [2, 3]] : List (List Nat)) WStream.empty).1 = Except.ok () ∧
      read_frames ([[1], [2, 3]] : List (List Nat)).length
        ⟨((write_frames ([[1], [2, 3]] : List (List Nat)) WStream.empty).2.log).flatten,
          IOErr.unexpectedEof⟩ =
        Except.ok ([[1], [2, 3]], ⟨[], IOErr.unexpectedEof⟩)) :=
  ⟨by decide, C8_sequential_frames_roundtrip [[1], [2, 3]] IOErr.unexpectedEof (by decide)⟩

/-- C9: for a representable payload, `write_frame` makes exactly two
sequential `write_all` calls — first the 4-byte header, then the payload
(both on the log, call count up by two); and when the header write
succeeds but the payload write fails, it returns that I/O error wrapped
as `WriteErr.I0` with the header already handed to the stream. -/
theorem C9_two_sequential_writes (p : List Nat) (log : List (List Nat)) (c : Nat)
    (e : IOErr) (rest rest2 : List (Option IOErr)) (h : p.length ≤ U32_MAX) :
    write_frame p ⟨log, none :: none :: rest, c⟩ =
      (Except.ok (), ⟨log ++ [u32_to_be_bytes (p.length % 2 ^ 32), p], rest, c + 2⟩, p) ∧
    write_frame p ⟨log, none :: some e :: rest2, c⟩ =
      (Except.error (WriteErr.I0 e),
        ⟨log ++ [u32_to_be_bytes (p.length % 2 ^ 32)], rest2, c + 2⟩, p) := by
  have hng : ¬ p.length > U32_MAX := by omega
  constructor <;> simp [write_frame, write_all, hng]

/-- C9 witness: the payload `[9]`, on a stream whose second write fails
with OS error 7. -/
theorem C9_two_sequential_writes_witness :
    ([9] : List Nat).length ≤ U32_MAX ∧
    (write_frame [9] ⟨[], [none, none], 0⟩ =
      (Except.ok (),
        ⟨[] ++ [u32_to_be_bytes (([9] : List Nat).length % 2 ^ 32), [9]], [], 0 + 2⟩, [9]) ∧
    write_frame [9] ⟨[], [none, some (IOErr.other 7)], 0⟩ =
      (Except.error (WriteErr.I0 (IOErr.other 7)),
        ⟨[] ++ [u32_to_be_bytes (([9] : List Nat).length % 2 ^ 32)], [], 0 + 2⟩, [9])) :=
  ⟨by decide, C9_two_sequential_writes [9] [] 0 (IOErr.other 7) [] [] (by decide)⟩

/-- C10: `write_frame` never modifies the caller's payload buffer: on
success, on `TooLongFrame` and on any I/O error alike, the buffer's
contents at return equal its contents at entry. -/
theorem C10_payload_buffer_unchanged (p : List Nat) (s : WStream) :
    (write_frame p s).2.2 = p := by
  rcases s with ⟨log, plan, calls⟩
  by_cases hgt : p.length > U32_MAX
  · simp [write_frame, hgt]
  · rcases plan with _ | ⟨o, rest⟩
    · simp [write_frame, write_all, hgt]
    · rcases o with _ | e1
      · rcases rest with _ | ⟨o2, rest2⟩
        · simp [write_frame, write_all, hgt]
        · rcases o2 with _ | e2 <;> simp [write_frame, write_all, hgt]
      · simp [write_frame, write_all, hgt]

end Sfp
